import Mathlib

/-!
Verification of the COVID-Safe Home Services backend (src/backend: main.py,
models.py, schemas.py) against its design specification.

The backend is shallowly embedded: the relational tables become lists of
records inside a `DB` structure, each endpoint handler becomes a pure function
`... → DB → DB × Except HTTPError α`, and every value the code draws from the
environment (`datetime.now()`, the `secrets` module, SHA-256 / password
hashing) is passed in explicitly.  Python floats that hold currency amounts
are modeled as exact rationals, with Python's `round(x, 2)` modeled as
round-half-to-even on the exact value.
-/

namespace CovidSafe

/-- Round-half-to-even to the nearest integer (the tie-breaking rule Python's
built-in `round` uses). -/
def round_half_even (q : ℚ) : ℤ :=
  let f : ℤ := ⌊q⌋
  if q - f < 1/2 then f
  else if 1/2 < q - f then f + 1
  else if Even f then f else f + 1

/-- Python's `round(x, 2)` (round to 2 decimal places, ties to even), on
floats modeled as exact rationals. -/
def round2 (q : ℚ) : ℚ := (round_half_even (q * 100) : ℚ) / 100

/-- The dictionary returned by `calculate_payment_amounts` (main.py 73-81). -/
structure PaymentAmounts where
  total : ℚ
  platform_fee : ℚ
  provider_amount : ℚ
deriving Repr, DecidableEq

/-- `calculate_payment_amounts` (main.py 73-81): payment breakdown with a 5%
platform fee. -/
def calculate_payment_amounts (price : ℚ) : PaymentAmounts :=
  let platform_fee := round2 (price * (5 / 100))
  let provider_amount := round2 (price - platform_fee)
  { total := price, platform_fee := platform_fee, provider_amount := provider_amount }

theorem round_half_even_intCast (n : ℤ) : round_half_even (n : ℚ) = n := by
  unfold round_half_even
  simp [Int.floor_intCast]

theorem round2_intCast_div_100 (n : ℤ) : round2 ((n : ℚ) / 100) = (n : ℚ) / 100 := by
  unfold round2
  rw [div_mul_cancel₀ _ (by norm_num : (100 : ℚ) ≠ 0), round_half_even_intCast]

/-- C3: for every positive price the fee calculator returns
`platform_fee = round(p * 0.05, 2)` and
`provider_amount = round(p - platform_fee, 2)` (and echoes the price as
`total`), and for every whole-cent price `p = k/100` the two parts recombine
exactly: `provider_amount + platform_fee = p`.  The function is a pure Lean
function, hence deterministic and side-effect free. -/
theorem calculate_payment_amounts_spec :
    (∀ p : ℚ, 0 < p →
      (calculate_payment_amounts p).total = p ∧
      (calculate_payment_amounts p).platform_fee = round2 (p * (5 / 100)) ∧
      (calculate_payment_amounts p).provider_amount
        = round2 (p - (calculate_payment_amounts p).platform_fee)) ∧
    (∀ k : ℤ, 0 < k →
      (calculate_payment_amounts ((k : ℚ) / 100)).provider_amount
        + (calculate_payment_amounts ((k : ℚ) / 100)).platform_fee
        = (k : ℚ) / 100) := by
  constructor
  · intro p _
    exact ⟨rfl, rfl, rfl⟩
  · intro k _
    show round2 ((k : ℚ) / 100 - round2 ((k : ℚ) / 100 * (5 / 100)))
        + round2 ((k : ℚ) / 100 * (5 / 100)) = (k : ℚ) / 100
    set m : ℤ := round_half_even ((k : ℚ) / 100 * (5 / 100) * 100) with hm
    have hfee : round2 ((k : ℚ) / 100 * (5 / 100)) = (m : ℚ) / 100 := rfl
    rw [hfee]
    have hsub : (k : ℚ) / 100 - (m : ℚ) / 100 = ((k - m : ℤ) : ℚ) / 100 := by
      push_cast
      ring
    rw [hsub, round2_intCast_div_100]
    push_cast
    ring

/-- Witness for C3 at the spec's own example price 100.00: the parts
recombine to the price exactly. -/
theorem calculate_payment_amounts_spec_witness :
    (calculate_payment_amounts (((10000 : ℤ) : ℚ) / 100)).provider_amount
      + (calculate_payment_amounts (((10000 : ℤ) : ℚ) / 100)).platform_fee
      = ((10000 : ℤ) : ℚ) / 100 :=
  calculate_payment_amounts_spec.2 10000 (by norm_num)

/-! ## Token and identifier generators (main.py 59-91) -/

/-- `generate_anonymous_id` (main.py 59-61); `tok` is the
`secrets.token_hex(16)` draw. -/
def generate_anonymous_id (tok : String) : String := "ANON-" ++ tok

/-- `generate_otp` (main.py 63-65): `str(secrets.randbelow(900000) + 100000)`;
`r` is the value returned by `secrets.randbelow(900000)` (a uniform,
cryptographically secure draw from `[0, 900000)`). -/
def generate_otp (r : Nat) : String := toString (r + 100000)

/-- `generate_payment_reference` (main.py 67-71); `timestamp` is
`datetime.now().strftime('%Y%m%d%H%M%S')` and `rand_hex` the uppercased
`secrets.token_hex(4)` draw. -/
def generate_payment_reference (timestamp rand_hex : String) : String :=
  "PAY-" ++ timestamp ++ "-" ++ rand_hex

/-- `get_card_type` (main.py 83-91). -/
def get_card_type (card_number : String) : String :=
  if card_number.startsWith "4" then "Visa"
  else if card_number.startsWith "5" then "Mastercard"
  else if card_number.startsWith "3" then "American Express"
  else "Unknown"

/-! ## Data model (models.py)

Each SQLAlchemy model becomes a structure; a column default becomes a field
default.  `DateTime` columns are modeled as abstract `Nat` instants and
`Date`/`Time` columns as strings (no claim depends on their internal
structure); `Float` currency columns are exact rationals. -/

/-- `models.User` (models.py 10-30). -/
structure User where
  id : Nat
  username : String
  email_hash : Option String := none
  password_hash : String
  role : String
  phone_hash : Option String := none
  anonymous_id : String
  vaccination_status : Option String := none
  health_status : String := "healthy"
  created_at : Nat := 0
  last_login : Option Nat := none
deriving Repr, DecidableEq

/-- `models.Service` (models.py 32-48). -/
structure Service where
  id : Nat
  provider_id : Nat
  service_type : String
  title : String
  description : String := ""
  price : ℚ
  location_area : String := ""
  covid_safe : Bool := true
  max_distance : Nat := 10
  created_at : Nat := 0
deriving Repr, DecidableEq

/-- `models.Booking` (models.py 50-83). -/
structure Booking where
  id : Nat
  service_id : Nat
  client_id : Nat
  provider_id : Nat
  booking_date : String
  booking_time : String
  status : String := "pending"
  location_hash : String
  contact_trace_token : String
  privacy_level : String := "standard"
  otp_code : String := ""
  otp_verified : Bool := false
  otp_generated_at : Option Nat := none
  payment_status : String := "pending"
  amount : ℚ := 0
  platform_fee : ℚ := 0
  provider_amount : ℚ := 0
  card_last4 : String := ""
  card_type : String := ""
  payment_reference : String := ""
  paid_at : Option Nat := none
  transferred_at : Option Nat := none
  created_at : Nat := 0
  completed_at : Option Nat := none
deriving Repr, DecidableEq

/-- `models.PaymentTransaction` (models.py 85-99). -/
structure PaymentTransaction where
  id : Nat
  booking_id : Nat
  transaction_type : String
  amount : ℚ
  payment_reference : String := ""
  status : String := "pending"
  description : String := ""
  created_at : Nat := 0
  completed_at : Option Nat := none
deriving Repr, DecidableEq

/-- `models.ContactEvent` (models.py 101-112). -/
structure ContactEvent where
  id : Nat
  anonymous_id_1 : String
  anonymous_id_2 : String
  encounter_token : String
  encounter_date : String
  duration_minutes : Nat := 30
  proximity_level : String := "close"
  location_hash : String
  created_at : Nat := 0
deriving Repr, DecidableEq

/-- `models.HealthDeclaration` (models.py 114-127). -/
structure HealthDeclaration where
  id : Nat
  user_id : Nat
  declaration_date : String
  symptoms : Option String := none
  temperature : Option ℚ := none
  covid_test_result : String
  declaration_hash : String
  created_at : Nat := 0
deriving Repr, DecidableEq

/-- `models.PrivacyLog` (models.py 143-154). -/
structure PrivacyLog where
  id : Nat
  user_id : Nat
  action : String
  resource : Option String := none
  ip_hash : String
  timestamp : Nat
deriving Repr, DecidableEq

/-- The relational store: one list per table (insertion-ordered rows, as
SQLite returns them).  `models.Review` has no endpoint in main.py and is
omitted. -/
structure DB where
  users : List User := []
  services : List Service := []
  bookings : List Booking := []
  payment_transactions : List PaymentTransaction := []
  contact_events : List ContactEvent := []
  health_declarations : List HealthDeclaration := []
  privacy_logs : List PrivacyLog := []
deriving Repr, DecidableEq

/-- A raised `fastapi.HTTPException`. -/
structure HTTPError where
  status_code : Nat
  detail : String
deriving Repr, DecidableEq

/-- Ambient effects: `hash_data` (main.py 55-57, a SHA-256 hex digest — its
concrete value never influences control flow in any handler) and
`datetime.now()` as an abstract instant. -/
structure Env where
  hashData : String → String
  now : Nat

/-- The next autoincrement primary key for a table. -/
def nextId {α : Type} (f : α → Nat) (l : List α) : Nat :=
  (l.map f).foldr max 0 + 1

def findUser (db : DB) (uid : Nat) : Option User :=
  db.users.find? (fun u => u.id == uid)

def findUserByUsername (db : DB) (uname : String) : Option User :=
  db.users.find? (fun u => u.username == uname)

def findService (db : DB) (sid : Nat) : Option Service :=
  db.services.find? (fun s => s.id == sid)

def findBooking (db : DB) (bid : Nat) : Option Booking :=
  db.bookings.find? (fun b => b.id == bid)

/-- Committing a mutation of the booking row with primary key `bid`. -/
def updateBooking (db : DB) (bid : Nat) (f : Booking → Booking) : DB :=
  { db with bookings := db.bookings.map (fun b => if b.id == bid then f b else b) }

/-- Committing a mutation of the user row with primary key `uid`. -/
def updateUser (db : DB) (uid : Nat) (f : User → User) : DB :=
  { db with users := db.users.map (fun u => if u.id == uid then f u else u) }

/-- `log_privacy_action` (main.py 93-103): inserts one privacy-log row and
commits. -/
def log_privacy_action (env : Env) (db : DB) (user_id : Nat) (action : String)
    (resource : Option String) : DB :=
  { db with privacy_logs := db.privacy_logs ++
      [{ id := nextId PrivacyLog.id db.privacy_logs
         user_id := user_id
         action := action
         resource := resource
         ip_hash := env.hashData "127.0.0.1"
         timestamp := env.now }] }

/-! ## Request / response schemas (schemas.py) and endpoint handlers (main.py)

Every handler returns `DB × Except HTTPError α`.  In each modeled handler the
source raises its `HTTPException`s before performing any write, so on the
error path the input `DB` is returned unchanged; on the success path the
returned `DB` is the committed state. -/

/-- `schemas.UserCreate`. -/
structure UserCreate where
  username : String
  role : String
  password : String
  email : Option String := none
  phone : Option String := none
  vaccination_status : Option String := none
deriving Repr, DecidableEq

/-- `register` (main.py 109-139).  `getPasswordHash` models
`auth.get_password_hash` and `anon_tok` the `secrets.token_hex(16)` draw
inside `generate_anonymous_id`. -/
def register (env : Env) (getPasswordHash : String → String) (anon_tok : String)
    (user : UserCreate) (db : DB) : DB × Except HTTPError User :=
  match findUserByUsername db user.username with
  | some _ => (db, .error ⟨400, "Username already registered"⟩)
  | none =>
    let hashed_password := getPasswordHash user.password
    let email_hash := user.email.map env.hashData
    let phone_hash := user.phone.map env.hashData
    let db_user : User :=
      { id := nextId User.id db.users
        username := user.username
        email_hash := email_hash
        password_hash := hashed_password
        role := user.role
        phone_hash := phone_hash
        anonymous_id := generate_anonymous_id anon_tok
        vaccination_status := user.vaccination_status
        health_status := "healthy"
        created_at := env.now }
    let db1 : DB := { db with users := db.users ++ [db_user] }
    (log_privacy_action env db1 db_user.id "USER_REGISTERED" none, .ok db_user)

/-- `schemas.BookingCreate` (card expiry/cvv are accepted but unused by the
handler and omitted). -/
structure BookingCreate where
  service_id : Nat
  booking_date : String
  booking_time : String
  location : String
  privacy_level : String := "standard"
  card_number : String
  card_name : String
deriving Repr, DecidableEq

/-- The random draws `create_booking` consumes: the `secrets.randbelow(900000)`
value behind `generate_otp`, the `secrets.token_hex(16)` contact-trace token,
and the timestamp and uppercased `secrets.token_hex(4)` parts of the payment
reference. -/
structure BookingRands where
  otp_r : Nat
  trace_tok : String
  pay_ts : String
  pay_rand : String
deriving Repr, DecidableEq

/-- `create_booking`, first transaction (main.py 286-326): the service lookup,
the derived payment/OTP/token values, the insert of the booking row and the
first `db.commit()`.  A crash after this call and before the second
transaction leaves exactly this state persisted. -/
def create_booking_commit1 (env : Env) (rands : BookingRands)
    (booking : BookingCreate) (current_user : User) (db : DB) :
    DB × Except HTTPError Booking :=
  match findService db booking.service_id with
  | none => (db, .error ⟨404, "Service not found"⟩)
  | some service =>
    let payment_details := calculate_payment_amounts service.price
    let card_last4 := booking.card_number.takeRight 4
    let card_type := get_card_type booking.card_number
    let otp_code := generate_otp rands.otp_r
    let payment_reference := generate_payment_reference rands.pay_ts rands.pay_rand
    let db_booking : Booking :=
      { id := nextId Booking.id db.bookings
        service_id := service.id
        client_id := current_user.id
        provider_id := service.provider_id
        booking_date := booking.booking_date
        booking_time := booking.booking_time
        status := "pending"
        location_hash := env.hashData booking.location
        contact_trace_token := rands.trace_tok
        privacy_level := booking.privacy_level
        otp_code := otp_code
        otp_verified := false
        otp_generated_at := some env.now
        payment_status := "paid_held"
        amount := payment_details.total
        platform_fee := payment_details.platform_fee
        provider_amount := payment_details.provider_amount
        card_last4 := card_last4
        card_type := card_type
        payment_reference := payment_reference
        paid_at := some env.now
        created_at := env.now }
    ({ db with bookings := db.bookings ++ [db_booking] }, .ok db_booking)

/-- `create_booking`, second transaction (main.py 328-352): the provider
lookup, the contact-event insert, the payment-transaction insert and the
second `db.commit()`.  A missing provider row would raise an uncaught
`AttributeError` (surfaced by the framework as HTTP 500) with nothing from
this transaction written; that path is the `.error` branch. -/
def create_booking_commit2 (env : Env) (booking : BookingCreate)
    (current_user : User) (db_booking : Booking) (db : DB) :
    DB × Except HTTPError Unit :=
  match findUser db db_booking.provider_id with
  | none => (db, .error ⟨500, "Internal Server Error"⟩)
  | some provider =>
    let contact_event : ContactEvent :=
      { id := nextId ContactEvent.id db.contact_events
        anonymous_id_1 := current_user.anonymous_id
        anonymous_id_2 := provider.anonymous_id
        encounter_token := db_booking.contact_trace_token
        encounter_date := booking.booking_date
        location_hash := db_booking.location_hash
        proximity_level := "close"
        created_at := env.now }
    let transaction : PaymentTransaction :=
      { id := nextId PaymentTransaction.id db.payment_transactions
        booking_id := db_booking.id
        transaction_type := "payment_held"
        amount := db_booking.amount
        payment_reference := db_booking.payment_reference
        status := "held"
        description := "Payment of $" ++ toString db_booking.amount ++ " held in escrow"
        created_at := env.now
        completed_at := some env.now }
    ({ db with contact_events := db.contact_events ++ [contact_event]
               payment_transactions := db.payment_transactions ++ [transaction] },
     .ok ())

/-- `create_booking` (main.py 279-356).  The handler's four writes happen in
three database transactions: the booking row is committed alone (line 325),
then the contact-event and payment-transaction rows together (line 352), then
the privacy-log row (inside `log_privacy_action`, line 103). -/
def create_booking (env : Env) (rands : BookingRands) (booking : BookingCreate)
    (current_user : User) (db : DB) : DB × Except HTTPError Booking :=
  match create_booking_commit1 env rands booking current_user db with
  | (db1, .error e) => (db1, .error e)
  | (db1, .ok db_booking) =>
    match create_booking_commit2 env booking current_user db_booking db1 with
    | (db2, .error e) => (db2, .error e)
    | (db2, .ok _) =>
      (log_privacy_action env db2 current_user.id "BOOKING_CREATED"
        (some ("booking_" ++ toString db_booking.id)), .ok db_booking)

/-- `schemas.OTPVerify`. -/
structure OTPVerify where
  otp_code : String
deriving Repr, DecidableEq

/-- `verify_otp` (main.py 392-417). -/
def verify_otp (env : Env) (booking_id : Nat) (otp_data : OTPVerify)
    (current_user : User) (db : DB) : DB × Except HTTPError String :=
  match findBooking db booking_id with
  | none => (db, .error ⟨404, "Booking not found"⟩)
  | some booking =>
    if booking.provider_id ≠ current_user.id then
      (db, .error ⟨403, "Only provider can verify OTP"⟩)
    else if booking.otp_code ≠ otp_data.otp_code then
      (db, .error ⟨400, "Invalid OTP code"⟩)
    else
      let db1 := updateBooking db booking_id
        (fun b => { b with otp_verified := true, status := "confirmed" })
      (log_privacy_action env db1 current_user.id "OTP_VERIFIED"
        (some ("booking_" ++ toString booking_id)), .ok "OTP verified successfully")

/-- The JSON body `complete_booking` returns (main.py 458-462). -/
structure CompleteResponse where
  message : String
  payment_transferred : ℚ
  platform_fee : ℚ
deriving Repr, DecidableEq

/-- `complete_booking` (main.py 419-462). -/
def complete_booking (env : Env) (booking_id : Nat) (current_user : User)
    (db : DB) : DB × Except HTTPError CompleteResponse :=
  match findBooking db booking_id with
  | none => (db, .error ⟨404, "Booking not found"⟩)
  | some booking =>
    if booking.provider_id ≠ current_user.id then
      (db, .error ⟨403, "Only provider can complete booking"⟩)
    else if booking.payment_status = "paid_held" then
      let db1 := updateBooking db booking_id (fun b =>
        { b with status := "completed", completed_at := some env.now,
                 payment_status := "transferred", transferred_at := some env.now })
      let transaction : PaymentTransaction :=
        { id := nextId PaymentTransaction.id db.payment_transactions
          booking_id := booking.id
          transaction_type := "transfer_to_provider"
          amount := booking.provider_amount
          payment_reference := "TRANSFER-" ++ toString booking.id
          status := "completed"
          description := "$" ++ toString booking.provider_amount
            ++ " transferred to provider (Platform fee: $"
            ++ toString booking.platform_fee ++ ")"
          created_at := env.now
          completed_at := some env.now }
      let db2 : DB := { db1 with payment_transactions := db1.payment_transactions ++ [transaction] }
      (log_privacy_action env db2 current_user.id "PAYMENT_TRANSFERRED"
        (some ("booking_" ++ toString booking_id)),
       .ok { message := "Booking completed"
             payment_transferred := booking.provider_amount
             platform_fee := booking.platform_fee })
    else
      let db1 := updateBooking db booking_id (fun b =>
        { b with status := "completed", completed_at := some env.now })
      (db1,
       .ok { message := "Booking completed"
             payment_transferred := booking.provider_amount
             platform_fee := booking.platform_fee })

/-- `schemas.HealthDeclarationCreate`. -/
structure HealthDeclarationCreate where
  declaration_date : String
  symptoms : Option String := none
  temperature : Option ℚ := none
  covid_test_result : String
deriving Repr, DecidableEq

/-- The JSON body `create_health_declaration` returns (main.py 500). -/
structure HealthDeclarationResponse where
  message : String
  contacts_traced : Nat
deriving Repr, DecidableEq

/-- `create_health_declaration` (main.py 468-500); `decl_tok` is the
`secrets.token_hex(16)` declaration hash. -/
def create_health_declaration (env : Env) (decl_tok : String)
    (declaration : HealthDeclarationCreate) (current_user : User) (db : DB) :
    DB × Except HTTPError HealthDeclarationResponse :=
  let db_declaration : HealthDeclaration :=
    { id := nextId HealthDeclaration.id db.health_declarations
      user_id := current_user.id
      declaration_date := declaration.declaration_date
      symptoms := declaration.symptoms
      temperature := declaration.temperature
      covid_test_result := declaration.covid_test_result
      declaration_hash := decl_tok
      created_at := env.now }
  let db1 : DB := { db with health_declarations := db.health_declarations ++ [db_declaration] }
  if declaration.covid_test_result = "positive" then
    let contacts := db1.contact_events.filter
      (fun e => e.anonymous_id_1 == current_user.anonymous_id
             || e.anonymous_id_2 == current_user.anonymous_id)
    let db2 := updateUser db1 current_user.id
      (fun u => { u with health_status := "positive" })
    (log_privacy_action env db2 current_user.id "COVID_POSITIVE_REPORTED" none,
     .ok { message := "Health declaration submitted", contacts_traced := contacts.length })
  else
    (db1, .ok { message := "Health declaration submitted", contacts_traced := 0 })

/-! ## Concrete fixtures (used by witness and counterexample theorems) -/

/-- A concrete environment. -/
def envW : Env := { hashData := fun s => "sha256:" ++ s, now := 1000 }

/-- A provider account. -/
def providerW : User :=
  { id := 1, username := "prov", password_hash := "ph1", role := "provider"
    anonymous_id := "ANON-aa" }

/-- A client account. -/
def clientW : User :=
  { id := 2, username := "cli", password_hash := "ph2", role := "client"
    anonymous_id := "ANON-bb" }

/-- A service offered by `providerW`, price 100.00. -/
def serviceW : Service :=
  { id := 1, provider_id := 1, service_type := "cleaning", title := "House cleaning"
    price := 100 }

/-- A pending booking of `serviceW` by `clientW`, escrow held. -/
def bookingW : Booking :=
  { id := 1, service_id := 1, client_id := 2, provider_id := 1
    booking_date := "2026-01-10", booking_time := "10:00"
    location_hash := "sha256:12 Main St", contact_trace_token := "ct0"
    otp_code := "123456", payment_status := "paid_held"
    amount := 100, platform_fee := 5, provider_amount := 95 }

/-- A database holding the two accounts, the service and the pending
booking. -/
def dbW : DB := { users := [providerW, clientW], services := [serviceW]
                  bookings := [bookingW] }

/-- `bookingW` after a completed lifecycle: status `completed`, payment
`transferred`. -/
def bookingC : Booking :=
  { bookingW with status := "completed", payment_status := "transferred" }

/-- `dbW` with the booking in the `completed`/`transferred` terminal state. -/
def dbC : DB := { dbW with bookings := [bookingC] }

/-- A booking-creation request for `serviceW` paid with a Visa card. -/
def bookingCreateW : BookingCreate :=
  { service_id := 1, booking_date := "2026-01-10", booking_time := "10:00"
    location := "12 Main St", card_number := "4111111111111111", card_name := "C L" }

/-- Fixed random draws for `create_booking`. -/
def randsW : BookingRands :=
  { otp_r := 23456, trace_tok := "ct0", pay_ts := "20260110100000", pay_rand := "ABCD" }

/-! ## Store lemmas -/

theorem find?_map_update {α : Type} (key : α → Nat) (i : Nat) (f : α → α)
    (hf : ∀ b, key (f b) = key b) (l : List α) :
    (l.map (fun b => if key b == i then f b else b)).find? (fun b => key b == i)
      = (l.find? (fun b => key b == i)).map f := by
  induction l with
  | nil => rfl
  | cons b t ih =>
    by_cases h : key b = i
    · simp [List.find?_cons_of_pos, h, hf]
    · simp only [List.map_cons, if_neg (by simp [h] : ¬(key b == i) = true)]
      rw [List.find?_cons_of_neg _ (by simp [h]), List.find?_cons_of_neg _ (by simp [h]), ih]

theorem findBooking_updateBooking (db : DB) (bid : Nat) (f : Booking → Booking)
    (hf : ∀ b, (f b).id = b.id) :
    findBooking (updateBooking db bid f) bid = (findBooking db bid).map f :=
  find?_map_update Booking.id bid f hf db.bookings

theorem findUser_updateUser (db : DB) (uid : Nat) (f : User → User)
    (hf : ∀ u, (f u).id = u.id) :
    findUser (updateUser db uid f) uid = (findUser db uid).map f :=
  find?_map_update User.id uid f hf db.users

theorem findBooking_log (env : Env) (db : DB) (uid : Nat) (a : String)
    (r : Option String) (bid : Nat) :
    findBooking (log_privacy_action env db uid a r) bid = findBooking db bid := rfl

theorem findUser_log (env : Env) (db : DB) (uid : Nat) (a : String)
    (r : Option String) (i : Nat) :
    findUser (log_privacy_action env db uid a r) i = findUser db i := rfl

theorem payment_transactions_log (env : Env) (db : DB) (uid : Nat) (a : String)
    (r : Option String) :
    (log_privacy_action env db uid a r).payment_transactions
      = db.payment_transactions := rfl

theorem payment_transactions_updateBooking (db : DB) (bid : Nat)
    (f : Booking → Booking) :
    (updateBooking db bid f).payment_transactions = db.payment_transactions := rfl

theorem findBooking_addTxns (db : DB) (ts : List PaymentTransaction) (bid : Nat) :
    findBooking { db with payment_transactions := ts } bid = findBooking db bid := rfl

/-- An element returned by `findBooking` carries the looked-up key. -/
theorem findBooking_id (db : DB) (bid : Nat) (bk : Booking)
    (h : findBooking db bid = some bk) : bk.id = bid := by
  have := List.find?_some h
  simpa using this

/-! ## Effect lemmas for `verify_otp` -/

theorem verify_otp_ok (env : Env) (db : DB) (bid : Nat) (u : User) (bk : Booking)
    (code : String) (hfind : findBooking db bid = some bk)
    (hprov : bk.provider_id = u.id) (hcode : code = bk.otp_code) :
    verify_otp env bid ⟨code⟩ u db
      = (log_privacy_action env
          (updateBooking db bid
            (fun b => { b with otp_verified := true, status := "confirmed" }))
          u.id "OTP_VERIFIED" (some ("booking_" ++ toString bid)),
         .ok "OTP verified successfully") := by
  unfold verify_otp
  rw [hfind]
  simp [hprov, hcode]

theorem verify_otp_notfound (env : Env) (db : DB) (bid : Nat) (u : User)
    (od : OTPVerify) (h : findBooking db bid = none) :
    verify_otp env bid od u db = (db, .error ⟨404, "Booking not found"⟩) := by
  unfold verify_otp
  rw [h]

theorem verify_otp_forbidden (env : Env) (db : DB) (bid : Nat) (u : User)
    (od : OTPVerify) (bk : Booking) (hfind : findBooking db bid = some bk)
    (hp : bk.provider_id ≠ u.id) :
    verify_otp env bid od u db
      = (db, .error ⟨403, "Only provider can verify OTP"⟩) := by
  unfold verify_otp
  rw [hfind]
  simp [hp]

theorem verify_otp_wrong (env : Env) (db : DB) (bid : Nat) (u : User)
    (od : OTPVerify) (bk : Booking) (hfind : findBooking db bid = some bk)
    (hp : bk.provider_id = u.id) (hc : bk.otp_code ≠ od.otp_code) :
    verify_otp env bid od u db = (db, .error ⟨400, "Invalid OTP code"⟩) := by
  unfold verify_otp
  rw [hfind]
  simp [hp, hc]

/-- No branch of `verify_otp` changes the payment status of the booking. -/
theorem verify_otp_payment_status (env : Env) (db : DB) (bid : Nat) (u : User)
    (od : OTPVerify) (bk : Booking) (hfind : findBooking db bid = some bk) :
    (findBooking (verify_otp env bid od u db).1 bid).map Booking.payment_status
      = some bk.payment_status := by
  by_cases hp : bk.provider_id = u.id
  · by_cases hc : bk.otp_code = od.otp_code
    · rw [verify_otp_ok env db bid u bk od.otp_code hfind hp hc.symm]
      rw [show (log_privacy_action env
          (updateBooking db bid
            (fun b => { b with otp_verified := true, status := "confirmed" }))
          u.id "OTP_VERIFIED" (some ("booking_" ++ toString bid)),
          (Except.ok "OTP verified successfully" : Except HTTPError String)).1
        = log_privacy_action env
          (updateBooking db bid
            (fun b => { b with otp_verified := true, status := "confirmed" }))
          u.id "OTP_VERIFIED" (some ("booking_" ++ toString bid)) from rfl]
      rw [findBooking_log, findBooking_updateBooking db bid
        (fun b => { b with otp_verified := true, status := "confirmed" })
        (fun b => rfl), hfind]
      rfl
    · rw [verify_otp_wrong env db bid u od bk hfind hp hc, hfind]
      rfl
  · rw [verify_otp_forbidden env db bid u od bk hfind hp, hfind]
    rfl

/-! ## Effect lemmas for `complete_booking` -/

theorem complete_booking_notfound (env : Env) (db : DB) (bid : Nat) (u : User)
    (h : findBooking db bid = none) :
    complete_booking env bid u db = (db, .error ⟨404, "Booking not found"⟩) := by
  unfold complete_booking
  rw [h]

theorem complete_booking_forbidden (env : Env) (db : DB) (bid : Nat) (u : User)
    (bk : Booking) (hfind : findBooking db bid = some bk)
    (hp : bk.provider_id ≠ u.id) :
    complete_booking env bid u db
      = (db, .error ⟨403, "Only provider can complete booking"⟩) := by
  unfold complete_booking
  rw [hfind]
  simp [hp]

/-- Effects of `complete_booking` when the escrow is held: the row moves to
`completed`/`transferred`, exactly one `transfer_to_provider` transaction of
the booking's `provider_amount` is appended, and the response reports the fee
split. -/
theorem complete_booking_paid (env : Env) (db : DB) (bid : Nat) (u : User)
    (bk : Booking) (hfind : findBooking db bid = some bk)
    (hp : bk.provider_id = u.id) (hpaid : bk.payment_status = "paid_held") :
    (complete_booking env bid u db).2
      = .ok { message := "Booking completed"
              payment_transferred := bk.provider_amount
              platform_fee := bk.platform_fee } ∧
    findBooking (complete_booking env bid u db).1 bid
      = some { bk with status := "completed", completed_at := some env.now,
                       payment_status := "transferred",
                       transferred_at := some env.now } ∧
    (complete_booking env bid u db).1.payment_transactions
      = db.payment_transactions ++
        [{ id := nextId PaymentTransaction.id db.payment_transactions
           booking_id := bk.id
           transaction_type := "transfer_to_provider"
           amount := bk.provider_amount
           payment_reference := "TRANSFER-" ++ toString bk.id
           status := "completed"
           description := "$" ++ toString bk.provider_amount
             ++ " transferred to provider (Platform fee: $"
             ++ toString bk.platform_fee ++ ")"
           created_at := env.now
           completed_at := some env.now }] := by
  unfold complete_booking
  rw [hfind]
  simp only [if_neg (not_not_intro hp), if_pos hpaid]
  refine ⟨trivial, ?_, rfl⟩
  rw [findBooking_log, findBooking_addTxns, findBooking_updateBooking db bid
    (fun b => { b with status := "completed", completed_at := some env.now,
                       payment_status := "transferred",
                       transferred_at := some env.now })
    (fun b => rfl), hfind]
  rfl

/-- Effects of `complete_booking` when the payment status is anything other
than `paid_held`: the row still moves to `completed`, no transaction row is
appended, the payment status is untouched, and the call succeeds with the
same fee-split response. -/
theorem complete_booking_not_paid (env : Env) (db : DB) (bid : Nat) (u : User)
    (bk : Booking) (hfind : findBooking db bid = some bk)
    (hp : bk.provider_id = u.id) (hnp : bk.payment_status ≠ "paid_held") :
    (complete_booking env bid u db).2
      = .ok { message := "Booking completed"
              payment_transferred := bk.provider_amount
              platform_fee := bk.platform_fee } ∧
    findBooking (complete_booking env bid u db).1 bid
      = some { bk with status := "completed", completed_at := some env.now } ∧
    (complete_booking env bid u db).1.payment_transactions
      = db.payment_transactions := by
  unfold complete_booking
  rw [hfind]
  simp only [if_neg (not_not_intro hp), if_neg hnp]
  refine ⟨trivial, ?_, rfl⟩
  rw [findBooking_updateBooking db bid
    (fun b => { b with status := "completed", completed_at := some env.now })
    (fun b => rfl), hfind]
  rfl

/-! ## Claim C4: OTP verification -/

/-- C4: for an existing booking whose caller is the booking's provider,
verify-otp with an input exactly equal to the stored OTP code succeeds and
sets `status` to `confirmed` and `otp_verified` to true on that booking row,
while verify-otp with any other input fails with HTTP 400 and returns the
whole store unchanged (in particular, a wrong code on a `pending` booking
leaves its status `pending`). -/
theorem verify_otp_spec (env : Env) (db : DB) (bid : Nat) (u : User)
    (bk : Booking) (code : String)
    (hfind : findBooking db bid = some bk) (hprov : bk.provider_id = u.id) :
    (code = bk.otp_code →
      (verify_otp env bid ⟨code⟩ u db).2 = .ok "OTP verified successfully" ∧
      findBooking (verify_otp env bid ⟨code⟩ u db).1 bid
        = some { bk with otp_verified := true, status := "confirmed" }) ∧
    (code ≠ bk.otp_code →
      verify_otp env bid ⟨code⟩ u db = (db, .error ⟨400, "Invalid OTP code"⟩)) := by
  constructor
  · intro hcode
    rw [verify_otp_ok env db bid u bk code hfind hprov hcode]
    refine ⟨rfl, ?_⟩
    rw [findBooking_log, findBooking_updateBooking db bid
      (fun b => { b with otp_verified := true, status := "confirmed" })
      (fun b => rfl), hfind]
    rfl
  · intro hcode
    exact verify_otp_wrong env db bid u ⟨code⟩ bk hfind hprov (Ne.symm hcode)

/-- Witness for C4: on the concrete pending booking, the correct code
confirms the booking. -/
theorem verify_otp_spec_witness :
    (verify_otp envW 1 ⟨"123456"⟩ providerW dbW).2 = .ok "OTP verified successfully" ∧
    findBooking (verify_otp envW 1 ⟨"123456"⟩ providerW dbW).1 1
      = some { bookingW with otp_verified := true, status := "confirmed" } :=
  (verify_otp_spec envW dbW 1 providerW bookingW "123456" rfl rfl).1 rfl

/-! ## Claim C2: terminal state -/

/-- C2 counterexample: the booking status `completed` is not terminal.  On a
booking already in the `completed`/`transferred` state, verify-otp by the
provider with the stored code succeeds and moves `status` back to
`confirmed`. -/
theorem completed_terminal_counterexample :
    (findBooking dbC 1).map Booking.status = some "completed" ∧
    (verify_otp envW 1 ⟨"123456"⟩ providerW dbC).2 = .ok "OTP verified successfully" ∧
    (findBooking (verify_otp envW 1 ⟨"123456"⟩ providerW dbC).1 1).map Booking.status
      = some "confirmed" :=
  ⟨rfl, rfl, rfl⟩

/-- C2 (amended): the payment status `transferred` is terminal — neither
verify-otp nor complete changes it, whoever calls and whatever the input —
and complete never moves a `completed` booking's status away from
`completed`; but verify-otp with the correct code moves a `completed`
booking's status back to `confirmed` (the counterexample above), so the
booking status `completed` is terminal only with respect to `complete`. -/
theorem terminal_state_amended (env : Env) (db : DB) (bid : Nat) (u : User)
    (code : String) (bk : Booking) (hfind : findBooking db bid = some bk) :
    (bk.payment_status = "transferred" →
      (findBooking (verify_otp env bid ⟨code⟩ u db).1 bid).map Booking.payment_status
        = some "transferred" ∧
      (findBooking (complete_booking env bid u db).1 bid).map Booking.payment_status
        = some "transferred") ∧
    (bk.status = "completed" →
      (findBooking (complete_booking env bid u db).1 bid).map Booking.status
        = some "completed") := by
  constructor
  · intro htr
    constructor
    · rw [verify_otp_payment_status env db bid u ⟨code⟩ bk hfind, htr]
    · by_cases hp : bk.provider_id = u.id
      · have hnp : bk.payment_status ≠ "paid_held" := by
          rw [htr]
          decide
        obtain ⟨-, h2, -⟩ := complete_booking_not_paid env db bid u bk hfind hp hnp
        rw [h2]
        simp [htr]
      · rw [complete_booking_forbidden env db bid u bk hfind hp]
        simp [hfind, htr]
  · intro hcomp
    by_cases hp : bk.provider_id = u.id
    · by_cases hpaid : bk.payment_status = "paid_held"
      · obtain ⟨-, h2, -⟩ := complete_booking_paid env db bid u bk hfind hp hpaid
        rw [h2]
        simp
      · obtain ⟨-, h2, -⟩ := complete_booking_not_paid env db bid u bk hfind hp hpaid
        rw [h2]
        simp
    · rw [complete_booking_forbidden env db bid u bk hfind hp]
      simp [hfind, hcomp]

/-- Witness for the amended C2, on the concrete terminal-state booking. -/
theorem terminal_state_amended_witness :
    ((findBooking (verify_otp envW 1 ⟨"123456"⟩ providerW dbC).1 1).map Booking.payment_status
        = some "transferred" ∧
      (findBooking (complete_booking envW 1 providerW dbC).1 1).map Booking.payment_status
        = some "transferred") ∧
    (findBooking (complete_booking envW 1 providerW dbC).1 1).map Booking.status
      = some "completed" :=
  ⟨(terminal_state_amended envW dbC 1 providerW "123456" bookingC rfl).1 rfl,
   (terminal_state_amended envW dbC 1 providerW "123456" bookingC rfl).2 rfl⟩

/-! ## Claims C5, C6, C10: completion and payment transfer -/

/-- C5: for an existing booking whose caller is the booking's provider,
complete succeeds and sets the status to `completed` unconditionally; exactly
when the payment status is `paid_held` it also moves the payment status to
`transferred` and appends exactly one `transfer_to_provider` transaction row
whose amount is the booking's `provider_amount`; for any other payment status
the transaction table is untouched, the payment status is untouched, and the
call still succeeds. -/
theorem complete_booking_spec (env : Env) (db : DB) (bid : Nat) (u : User)
    (bk : Booking) (hfind : findBooking db bid = some bk)
    (hprov : bk.provider_id = u.id) :
    (complete_booking env bid u db).2
      = .ok { message := "Booking completed"
              payment_transferred := bk.provider_amount
              platform_fee := bk.platform_fee } ∧
    (findBooking (complete_booking env bid u db).1 bid).map Booking.status
      = some "completed" ∧
    (bk.payment_status = "paid_held" →
      (findBooking (complete_booking env bid u db).1 bid).map Booking.payment_status
        = some "transferred" ∧
      (complete_booking env bid u db).1.payment_transactions.map
          (fun t => (t.transaction_type, t.booking_id, t.amount))
        = db.payment_transactions.map
            (fun t => (t.transaction_type, t.booking_id, t.amount))
          ++ [("transfer_to_provider", bk.id, bk.provider_amount)]) ∧
    (bk.payment_status ≠ "paid_held" →
      (findBooking (complete_booking env bid u db).1 bid).map Booking.payment_status
        = some bk.payment_status ∧
      (complete_booking env bid u db).1.payment_transactions
        = db.payment_transactions) := by
  by_cases hpaid : bk.payment_status = "paid_held"
  · obtain ⟨h1, h2, h3⟩ := complete_booking_paid env db bid u bk hfind hprov hpaid
    refine ⟨h1, ?_, fun _ => ⟨?_, ?_⟩, fun hn => absurd hpaid hn⟩
    · rw [h2]
      simp
    · rw [h2]
      simp
    · rw [h3]
      simp
  · obtain ⟨h1, h2, h3⟩ := complete_booking_not_paid env db bid u bk hfind hprov hpaid
    refine ⟨h1, ?_, fun hp => absurd hp hpaid, fun _ => ⟨?_, h3⟩⟩
    · rw [h2]
      simp
    · rw [h2]
      simp

/-- Witness for C5 on the concrete held booking: completion transfers and
appends the one transaction row. -/
theorem complete_booking_spec_witness :
    (complete_booking envW 1 providerW dbW).2
      = .ok { message := "Booking completed"
              payment_transferred := bookingW.provider_amount
              platform_fee := bookingW.platform_fee } ∧
    (findBooking (complete_booking envW 1 providerW dbW).1 1).map Booking.status
      = some "completed" ∧
    ((findBooking (complete_booking envW 1 providerW dbW).1 1).map Booking.payment_status
        = some "transferred" ∧
      (complete_booking envW 1 providerW dbW).1.payment_transactions.map
          (fun t => (t.transaction_type, t.booking_id, t.amount))
        = dbW.payment_transactions.map
            (fun t => (t.transaction_type, t.booking_id, t.amount))
          ++ [("transfer_to_provider", bookingW.id, bookingW.provider_amount)]) :=
  ⟨(complete_booking_spec envW dbW 1 providerW bookingW rfl rfl).1,
   (complete_booking_spec envW dbW 1 providerW bookingW rfl rfl).2.1,
   (complete_booking_spec envW dbW 1 providerW bookingW rfl rfl).2.2.1 rfl⟩

/-- The `transfer_to_provider` transaction rows recorded for a booking. -/
def transfer_transactions (db : DB) (bid : Nat) : List PaymentTransaction :=
  db.payment_transactions.filter
    (fun t => t.booking_id == bid && t.transaction_type == "transfer_to_provider")

/-- C6: completing a held booking twice appends exactly one
`transfer_to_provider` row over the initial state — not two — the second call
appends nothing beyond the first, and the final payment status equals the one
a single call leaves (`transferred`). -/
theorem complete_booking_idempotent (env1 env2 : Env) (db : DB) (bid : Nat)
    (u : User) (bk : Booking) (hfind : findBooking db bid = some bk)
    (hprov : bk.provider_id = u.id) (hpaid : bk.payment_status = "paid_held") :
    (transfer_transactions
        (complete_booking env2 bid u (complete_booking env1 bid u db).1).1 bid).length
      = (transfer_transactions db bid).length + 1 ∧
    (transfer_transactions
        (complete_booking env2 bid u (complete_booking env1 bid u db).1).1 bid).length
      = (transfer_transactions (complete_booking env1 bid u db).1 bid).length ∧
    Option.map Booking.payment_status
        (findBooking (complete_booking env2 bid u (complete_booking env1 bid u db).1).1 bid)
      = Option.map Booking.payment_status
          (findBooking (complete_booking env1 bid u db).1 bid) := by
  have hid : bk.id = bid := findBooking_id db bid bk hfind
  obtain ⟨-, h2, h3⟩ := complete_booking_paid env1 db bid u bk hfind hprov hpaid
  obtain ⟨-, g2, g3⟩ := complete_booking_not_paid env2
    (complete_booking env1 bid u db).1 bid u _ h2 hprov
    (by show ("transferred" : String) ≠ "paid_held"
        decide)
  have e2 : transfer_transactions
        (complete_booking env2 bid u (complete_booking env1 bid u db).1).1 bid
      = transfer_transactions (complete_booking env1 bid u db).1 bid := by
    unfold transfer_transactions
    rw [g3]
  have e1 : (transfer_transactions (complete_booking env1 bid u db).1 bid).length
      = (transfer_transactions db bid).length + 1 := by
    unfold transfer_transactions
    rw [h3, List.filter_append]
    simp [hid]
  refine ⟨?_, ?_, ?_⟩
  · rw [e2]
    exact e1
  · rw [e2]
  · rw [g2, h2]
    rfl

/-- Witness for C6 on the concrete held booking. -/
theorem complete_booking_idempotent_witness :
    (transfer_transactions
        (complete_booking envW 1 providerW (complete_booking envW 1 providerW dbW).1).1 1).length
      = (transfer_transactions dbW 1).length + 1 ∧
    (transfer_transactions
        (complete_booking envW 1 providerW (complete_booking envW 1 providerW dbW).1).1 1).length
      = (transfer_transactions (complete_booking envW 1 providerW dbW).1 1).length ∧
    Option.map Booking.payment_status
        (findBooking (complete_booking envW 1 providerW (complete_booking envW 1 providerW dbW).1).1 1)
      = Option.map Booking.payment_status
          (findBooking (complete_booking envW 1 providerW dbW).1 1) :=
  complete_booking_idempotent envW envW dbW 1 providerW bookingW rfl rfl rfl

/-- C10: the response of every successful completion reports
`payment_transferred` equal to the booking's `provider_amount` and
`platform_fee` equal to the booking's `platform_fee`, for every payment
status — the same amounts are reported even when no transfer occurred during
the call. -/
theorem complete_booking_response_amounts (env : Env) (db : DB) (bid : Nat)
    (u : User) (bk : Booking) (hfind : findBooking db bid = some bk)
    (hprov : bk.provider_id = u.id) :
    (complete_booking env bid u db).2
      = .ok { message := "Booking completed"
              payment_transferred := bk.provider_amount
              platform_fee := bk.platform_fee } := by
  by_cases hpaid : bk.payment_status = "paid_held"
  · exact (complete_booking_paid env db bid u bk hfind hprov hpaid).1
  · exact (complete_booking_not_paid env db bid u bk hfind hprov hpaid).1

/-- Witness for C10 on the concrete already-transferred booking, where no
transfer row is written yet the amounts are still reported. -/
theorem complete_booking_response_amounts_witness :
    (complete_booking envW 1 providerW dbC).2
      = .ok { message := "Booking completed"
              payment_transferred := bookingC.provider_amount
              platform_fee := bookingC.platform_fee } :=
  complete_booking_response_amounts envW dbC 1 providerW bookingC rfl rfl

/-! ## Claim C7: positive-declaration contact lookup -/

theorem findUser_updateUser_addDecls (db : DB) (hs : List HealthDeclaration)
    (i : Nat) :
    findUser { db with health_declarations := hs } i = findUser db i := rfl

/-- C7: a health declaration with a positive test result reports
`contacts_traced` equal to the number of contact-event rows in which either
pseudonymous-id slot equals the declarer's pseudonymous id, and sets the
declarer's stored health status to `positive`; a declaration with any other
result reports `contacts_traced = 0` and leaves the user table unchanged. -/
theorem create_health_declaration_spec (env : Env) (tok : String)
    (decl : HealthDeclarationCreate) (u : User) (db : DB) (usr : User)
    (husr : findUser db u.id = some usr) :
    (decl.covid_test_result = "positive" →
      (create_health_declaration env tok decl u db).2
        = .ok { message := "Health declaration submitted"
                contacts_traced := (db.contact_events.filter
                  (fun e => e.anonymous_id_1 == u.anonymous_id
                         || e.anonymous_id_2 == u.anonymous_id)).length } ∧
      findUser (create_health_declaration env tok decl u db).1 u.id
        = some { usr with health_status := "positive" }) ∧
    (decl.covid_test_result ≠ "positive" →
      (create_health_declaration env tok decl u db).2
        = .ok { message := "Health declaration submitted", contacts_traced := 0 } ∧
      (create_health_declaration env tok decl u db).1.users = db.users) := by
  constructor
  · intro hpos
    unfold create_health_declaration
    simp only [if_pos hpos]
    refine ⟨trivial, ?_⟩
    rw [findUser_log, findUser_updateUser _ u.id
      (fun v => { v with health_status := "positive" }) (fun v => rfl),
      findUser_updateUser_addDecls, husr]
    rfl
  · intro hneg
    unfold create_health_declaration
    simp only [if_neg hneg]
    exact ⟨trivial, trivial⟩

/-- A contact event between the two fixture accounts. -/
def contactW : ContactEvent :=
  { id := 1, anonymous_id_1 := "ANON-bb", anonymous_id_2 := "ANON-aa"
    encounter_token := "ct0", encounter_date := "2026-01-10"
    location_hash := "sha256:12 Main St" }

/-- `dbW` with one recorded contact event. -/
def dbE : DB := { dbW with contact_events := [contactW] }

/-- Witness for C7: the client with one prior contact event declares
positive; one contact is traced and the stored health status flips. -/
theorem create_health_declaration_spec_witness :
    (create_health_declaration envW "dh" ⟨"2026-01-11", none, none, "positive"⟩
        clientW dbE).2
      = .ok { message := "Health declaration submitted"
              contacts_traced := (dbE.contact_events.filter
                (fun e => e.anonymous_id_1 == clientW.anonymous_id
                       || e.anonymous_id_2 == clientW.anonymous_id)).length } ∧
    findUser (create_health_declaration envW "dh"
        ⟨"2026-01-11", none, none, "positive"⟩ clientW dbE).1 clientW.id
      = some { clientW with health_status := "positive" } :=
  (create_health_declaration_spec envW "dh" ⟨"2026-01-11", none, none, "positive"⟩
    clientW dbE clientW rfl).1 rfl

/-! ## Claim C8: duplicate username registration -/

theorem register_taken (env : Env) (gph : String → String) (tok : String)
    (u : UserCreate) (db : DB) (usr : User)
    (h : findUserByUsername db u.username = some usr) :
    register env gph tok u db = (db, .error ⟨400, "Username already registered"⟩) := by
  unfold register
  rw [h]

theorem register_free (env : Env) (gph : String → String) (tok : String)
    (u : UserCreate) (db : DB)
    (hfree : findUserByUsername db u.username = none) :
    ∃ nu : User, nu.username = u.username ∧
      (register env gph tok u db).1.users = db.users ++ [nu] ∧
      (register env gph tok u db).2 = .ok nu := by
  unfold register
  rw [hfree]
  exact ⟨_, rfl, rfl, rfl⟩

/-- C8: registering a username that is already taken fails with the
duplicate-username error (HTTP 400, the spec's `Conflict` case) and returns
the store exactly as it was after the first registration: the first user's
row is unaffected and no second row is created. -/
theorem register_duplicate_username (env1 env2 : Env)
    (gph1 gph2 : String → String) (tok1 tok2 : String)
    (u1 u2 : UserCreate) (db : DB) (hsame : u2.username = u1.username)
    (hfree : findUserByUsername db u1.username = none) :
    ((register env1 gph1 tok1 u1 db).2).isOk = true ∧
    register env2 gph2 tok2 u2 (register env1 gph1 tok1 u1 db).1
      = ((register env1 gph1 tok1 u1 db).1,
         .error ⟨400, "Username already registered"⟩) := by
  obtain ⟨nu, hname, husers, hok⟩ := register_free env1 gph1 tok1 u1 db hfree
  constructor
  · rw [hok]
    rfl
  · apply register_taken env2 gph2 tok2 u2 _ nu
    unfold findUserByUsername at hfree ⊢
    rw [husers, hsame, List.find?_append, hfree]
    simp [hname]

/-- A first registration request. -/
def userCreate1 : UserCreate := { username := "alice", role := "client", password := "pw1" }

/-- A second registration request reusing the same username. -/
def userCreate2 : UserCreate := { username := "alice", role := "provider", password := "pw2" }

/-- Witness for C8 starting from an empty store. -/
theorem register_duplicate_username_witness :
    ((register envW (fun p => "h:" ++ p) "tk1" userCreate1 {}).2).isOk = true ∧
    register envW (fun p => "h:" ++ p) "tk2" userCreate2
        (register envW (fun p => "h:" ++ p) "tk1" userCreate1 {}).1
      = ((register envW (fun p => "h:" ++ p) "tk1" userCreate1 {}).1,
         .error ⟨400, "Username already registered"⟩) :=
  register_duplicate_username envW envW (fun p => "h:" ++ p) (fun p => "h:" ++ p)
    "tk1" "tk2" userCreate1 userCreate2 {} rfl rfl

/-! ## Claim C1: atomicity of booking creation -/

theorem findUser_addBookings (db : DB) (bs : List Booking) (i : Nat) :
    findUser { db with bookings := bs } i = findUser db i := rfl

/-- The two accounts and the service, with no booking yet. -/
def dbS : DB := { users := [providerW, clientW], services := [serviceW] }

/-- C1 counterexample: booking creation is not a single transaction.  The
first `db.commit()` (main.py 325) happens after the booking insert and before
the contact-event insert; the state it persists — the state a failure at that
point leaves behind — holds one row in `bookings` and zero rows in
`contact_events`, not zero rows in both. -/
theorem create_booking_atomic_counterexample :
    ((create_booking_commit1 envW randsW bookingCreateW clientW dbS).2).isOk = true ∧
    (create_booking_commit1 envW randsW bookingCreateW clientW dbS).1.bookings.length = 1 ∧
    (create_booking_commit1 envW randsW bookingCreateW clientW dbS).1.contact_events.length = 0 :=
  ⟨rfl, rfl, rfl⟩

/-- C1 (amended): booking creation performs its four writes in three
transactions, not one.  The first transaction commits exactly the new booking
row (contact events, payment transactions and privacy logs untouched), so a
failure after it leaves the booking row persisted with no contact-event row;
the second transaction commits the contact-event row and the `payment_held`
transaction row together; the third commits the privacy-log row.  When the
service and its provider exist, the completed call has added exactly one row
to each of the four tables. -/
theorem create_booking_commits (env : Env) (rands : BookingRands)
    (bc : BookingCreate) (u : User) (db : DB) (sv : Service) (pu : User)
    (hs : findService db bc.service_id = some sv)
    (hpu : findUser db sv.provider_id = some pu) :
    ((create_booking_commit1 env rands bc u db).2).isOk = true ∧
    (create_booking_commit1 env rands bc u db).1.bookings.length
      = db.bookings.length + 1 ∧
    (create_booking_commit1 env rands bc u db).1.contact_events
      = db.contact_events ∧
    (create_booking_commit1 env rands bc u db).1.payment_transactions
      = db.payment_transactions ∧
    (create_booking_commit1 env rands bc u db).1.privacy_logs
      = db.privacy_logs ∧
    (∀ bkg : Booking, (create_booking_commit1 env rands bc u db).2 = .ok bkg →
      (create_booking_commit2 env bc u bkg
          (create_booking_commit1 env rands bc u db).1).1.contact_events.length
        = db.contact_events.length + 1 ∧
      (create_booking_commit2 env bc u bkg
          (create_booking_commit1 env rands bc u db).1).1.payment_transactions.length
        = db.payment_transactions.length + 1) ∧
    (create_booking env rands bc u db).1.bookings.length
      = db.bookings.length + 1 ∧
    (create_booking env rands bc u db).1.contact_events.length
      = db.contact_events.length + 1 ∧
    (create_booking env rands bc u db).1.payment_transactions.length
      = db.payment_transactions.length + 1 ∧
    (create_booking env rands bc u db).1.privacy_logs.length
      = db.privacy_logs.length + 1 := by
  unfold create_booking create_booking_commit2 create_booking_commit1
  rw [hs]
  simp [findUser_addBookings, hpu, log_privacy_action, Except.isOk, Except.toBool, List.length_append]

/-- Witness for the amended C1 on the concrete store. -/
theorem create_booking_commits_witness :
    ((create_booking_commit1 envW randsW bookingCreateW clientW dbS).2).isOk = true ∧
    (create_booking_commit1 envW randsW bookingCreateW clientW dbS).1.bookings.length
      = dbS.bookings.length + 1 ∧
    (create_booking_commit1 envW randsW bookingCreateW clientW dbS).1.contact_events
      = dbS.contact_events ∧
    (create_booking envW randsW bookingCreateW clientW dbS).1.contact_events.length
      = dbS.contact_events.length + 1 ∧
    (create_booking envW randsW bookingCreateW clientW dbS).1.payment_transactions.length
      = dbS.payment_transactions.length + 1 :=
  ⟨(create_booking_commits envW randsW bookingCreateW clientW dbS serviceW providerW
      rfl rfl).1,
   (create_booking_commits envW randsW bookingCreateW clientW dbS serviceW providerW
      rfl rfl).2.1,
   (create_booking_commits envW randsW bookingCreateW clientW dbS serviceW providerW
      rfl rfl).2.2.1,
   (create_booking_commits envW randsW bookingCreateW clientW dbS serviceW providerW
      rfl rfl).2.2.2.2.2.2.2.1,
   (create_booking_commits envW randsW bookingCreateW clientW dbS serviceW providerW
      rfl rfl).2.2.2.2.2.2.2.2.1⟩

/-! ## Claim C9: OTP format and distribution

`Nat.repr` is the model of Python's `str` on integers; the lemmas below
characterise it through `Nat.digits`. -/

theorem toDigitsCore_eq_digits (b : Nat) (hb : 1 < b) :
    ∀ (f n : Nat) (ds : List Char), 0 < n → n < b ^ f →
      Nat.toDigitsCore b f n ds
        = ((Nat.digits b n).map Nat.digitChar).reverse ++ ds := by
  intro f
  induction f with
  | zero =>
    intro n ds hn hlt
    simp at hlt
    omega
  | succ f ih =>
    intro n ds hn hlt
    simp only [Nat.toDigitsCore]
    by_cases h0 : n / b = 0
    · have hnb : n < b := by
        by_contra hge
        push_neg at hge
        have : 0 < n / b := Nat.div_pos hge (by omega)
        omega
      rw [if_pos h0, Nat.digits_def' hb hn, h0, Nat.digits_zero,
        Nat.mod_eq_of_lt hnb]
      simp
    · have hn' : 0 < n / b := Nat.pos_of_ne_zero h0
      have hlt' : n / b < b ^ f := by
        rw [pow_succ] at hlt
        exact (Nat.div_lt_iff_lt_mul (by omega)).mpr hlt
      rw [if_neg h0, ih (n / b) (Nat.digitChar (n % b) :: ds) hn' hlt',
        Nat.digits_def' hb hn]
      simp

theorem repr_eq_digits (n : Nat) (hn : 0 < n) :
    Nat.repr n = (((Nat.digits 10 n).map Nat.digitChar).reverse).asString := by
  have h1 : n < 10 ^ (n + 1) :=
    lt_of_lt_of_le (Nat.lt_pow_self (by norm_num) n)
      (Nat.pow_le_pow_right (by norm_num) (Nat.le_succ n))
  show (Nat.toDigitsCore 10 (n + 1) n []).asString = _
  rw [toDigitsCore_eq_digits 10 (by norm_num) (n + 1) n [] hn h1, List.append_nil]

theorem asString_length (l : List Char) : (List.asString l).length = l.length := rfl

theorem toList_asString (l : List Char) : (List.asString l).toList = l := rfl

theorem digitChar_isDigit : ∀ d : Nat, d < 10 → (Nat.digitChar d).isDigit = true := by
  decide

theorem digitChar_inj_lt :
    ∀ a < 10, ∀ b < 10, Nat.digitChar a = Nat.digitChar b → a = b := by
  decide

theorem map_digitChar_inj :
    ∀ l1 l2 : List Nat, (∀ d ∈ l1, d < 10) → (∀ d ∈ l2, d < 10) →
      l1.map Nat.digitChar = l2.map Nat.digitChar → l1 = l2 := by
  intro l1
  induction l1 with
  | nil =>
    intro l2 _ _ h
    cases l2 with
    | nil => rfl
    | cons b t => simp at h
  | cons a t ih =>
    intro l2 h1 h2 h
    cases l2 with
    | nil => simp at h
    | cons b t2 =>
      simp only [List.map_cons, List.cons.injEq] at h
      have hab : a = b :=
        digitChar_inj_lt a (h1 a (by simp)) b (h2 b (by simp)) h.1
      rw [hab, ih t2 (fun d hd => h1 d (by simp [hd]))
        (fun d hd => h2 d (by simp [hd])) h.2]

theorem repr_inj_of_pos (n1 n2 : Nat) (h1 : 0 < n1) (h2 : 0 < n2)
    (h : Nat.repr n1 = Nat.repr n2) : n1 = n2 := by
  rw [repr_eq_digits n1 h1, repr_eq_digits n2 h2] at h
  have hl : ((Nat.digits 10 n1).map Nat.digitChar).reverse
      = ((Nat.digits 10 n2).map Nat.digitChar).reverse :=
    congrArg String.toList h
  have hd : (Nat.digits 10 n1).map Nat.digitChar
      = (Nat.digits 10 n2).map Nat.digitChar := List.reverse_injective hl
  have hdig : Nat.digits 10 n1 = Nat.digits 10 n2 :=
    map_digitChar_inj _ _ (fun d hd2 => Nat.digits_lt_base (by norm_num) hd2)
      (fun d hd2 => Nat.digits_lt_base (by norm_num) hd2) hd
  calc n1 = Nat.ofDigits 10 (Nat.digits 10 n1) := (Nat.ofDigits_digits 10 n1).symm
    _ = Nat.ofDigits 10 (Nat.digits 10 n2) := by rw [hdig]
    _ = n2 := Nat.ofDigits_digits 10 n2

/-- C9: every generated OTP is the decimal representation of `r + 100000` for
the uniform secure draw `r < 900000` of `secrets.randbelow(900000)`, so its
integer value lies in `[100000, 999999]`; it is a string of exactly 6 digit
characters; and `r ↦ OTP` is a bijection between `[0, 900000)` and the
decimal strings of `[100000, 999999]`, so the uniform distribution of `r`
carries over to the OTP (the cryptographic strength of the source is the
`secrets` module's contract, outside the model). -/
theorem generate_otp_spec :
    (∀ r : Nat, r < 900000 →
      generate_otp r = Nat.repr (r + 100000) ∧
      100000 ≤ r + 100000 ∧ r + 100000 ≤ 999999 ∧
      (generate_otp r).length = 6 ∧
      ∀ c ∈ (generate_otp r).toList, c.isDigit = true) ∧
    (∀ r1 r2 : Nat, r1 < 900000 → r2 < 900000 →
      generate_otp r1 = generate_otp r2 → r1 = r2) ∧
    (∀ n : Nat, 100000 ≤ n → n ≤ 999999 →
      ∃ r : Nat, r < 900000 ∧ generate_otp r = Nat.repr n) := by
  have e5 : (10 : ℕ) ^ 5 = 100000 := by norm_num
  have e6 : (10 : ℕ) ^ (5 + 1) = 1000000 := by norm_num
  refine ⟨?_, ?_, ?_⟩
  · intro r hr
    refine ⟨rfl, by omega, by omega, ?_, ?_⟩
    · show (Nat.repr (r + 100000)).length = 6
      have hlog : Nat.log 10 (r + 100000) = 5 :=
        Nat.log_eq_of_pow_le_of_lt_pow (by rw [e5]; omega) (by rw [e6]; omega)
      rw [repr_eq_digits _ (by omega), asString_length, List.length_reverse,
        List.length_map, Nat.digits_len 10 _ (by norm_num) (by omega), hlog]
    · intro c hc
      rw [show generate_otp r = Nat.repr (r + 100000) from rfl,
        repr_eq_digits _ (by omega), toList_asString, List.mem_reverse] at hc
      obtain ⟨d, hd, rfl⟩ := List.mem_map.mp hc
      exact digitChar_isDigit d (Nat.digits_lt_base (by norm_num) hd)
  · intro r1 r2 h1 h2 h
    have := repr_inj_of_pos (r1 + 100000) (r2 + 100000) (by omega) (by omega) h
    omega
  · intro n hlo hhi
    refine ⟨n - 100000, by omega, ?_⟩
    show toString (n - 100000 + 100000) = Nat.repr n
    rw [show n - 100000 + 100000 = n from by omega]
    rfl

/-- Witness for C9 at the concrete draw `r = 23456` (OTP "123456"). -/
theorem generate_otp_spec_witness :
    generate_otp 23456 = Nat.repr (23456 + 100000) ∧
    100000 ≤ 23456 + 100000 ∧ 23456 + 100000 ≤ 999999 ∧
    (generate_otp 23456).length = 6 ∧
    ∀ c ∈ (generate_otp 23456).toList, c.isDigit = true :=
  generate_otp_spec.1 23456 (by decide)

end CovidSafe
